import Mathlib

/-!
# Verification of the `stace` ingestion and calibration core

Shallow embedding of `src/stace/dataloader.py` (the ThingSpeak paginated
ingestion engine) and `src/stace/calibrate.py` (the one-, two- and
three-point calibration engine), together with theorems settling the
frozen claims about them.

Modelling conventions:

* Timestamps are integers (`Int`); a feed record is represented by its
  timestamp, since every claim about the ingestion engine concerns only
  record counts, ordering and duplication of timestamps.
* Python floats are idealised as rationals (`ℚ`): the calibration claims
  are stated "up to floating-point epsilon", i.e. about the exact
  real-arithmetic values the code computes.
* A Python function that can raise is embedded as a function into
  `Except PyErr _`; the `PyErr` constructors name the exception objects
  the code (or the libraries it calls) actually raises.
* The fetching functions are instrumented to also return the list of
  request parameter sets they issued to the remote service, so that
  claims about the requests themselves (batch sizes, batch counts,
  continuation bounds) can be stated.
-/

namespace Stace

/-- Exceptions raised by the embedded code.
`valueError msg` models Python's `ValueError(msg)` (dataloader.py line 59
raises `ValueError("No data was fetched.")` on an empty response);
`typeError` models the `TypeError` from `None // N_MAX` when
`get_multiple_batches` is called without a `results` entry;
`nameError n` models `NameError` on an undefined bare name `n`;
`linAlgError` models `numpy.linalg.LinAlgError` raised by
`np.linalg.inv` on a singular matrix;
`zeroDivisionError` models Python's `ZeroDivisionError`. -/
inductive PyErr where
  | valueError (msg : String)
  | typeError
  | nameError (n : String)
  | linAlgError
  | zeroDivisionError
deriving DecidableEq, Repr

/-- The query parameters of one ThingSpeak read request that the code
inspects or sets: the record-count bound `results` and the inclusive
upper timestamp bound `end` (other keys such as `api_key` or `start`
are passed through unchanged by the code and do not affect any claim). -/
structure QueryParams where
  results : Option Nat
  endTs : Option Int
deriving DecidableEq, Repr

/-- dataloader.py line 38: the fixed per-request cap. -/
def MAX_BATCH_SIZE : Nat := 8000

/-- Modelled from the spec (§4.2, §6): the remote ThingSpeak-like service,
which is not part of the repository.  Its history is a list of record
timestamps in ascending order; a request is answered with the most
recent `results` records (the service enforces the hard protocol cap of
8000 records per request) whose timestamp is at most the inclusive
`end` bound when one is given.  The response lists records in ascending
timestamp order. -/
def serve (hist : List Int) (p : QueryParams) : List Int :=
  let eligible := hist.filter (fun t =>
    match p.endTs with
    | none => true
    | some e => decide (t ≤ e))
  eligible.drop (eligible.length - min (p.results.getD 0) MAX_BATCH_SIZE)

/-- dataloader.py lines 46-73, `ThingSpeakAPICaller.get_single_batch`:
issue one request; raise `ValueError("No data was fetched.")` if the
response holds zero records (line 58-59); otherwise return the records
sorted by timestamp ascending (line 73).  Field renaming and the
str-to-float conversion (lines 61-71) do not affect the timestamps and
are not modelled. -/
def get_single_batch (hist : List Int) (p : QueryParams) : Except PyErr (List Int) :=
  let feeds := serve hist p
  if feeds.isEmpty then .error (.valueError "No data was fetched.")
  else .ok (List.insertionSort (· ≤ ·) feeds)

/-- The loop of dataloader.py lines 80-92: walk the batch-size list,
threading `start_date` (the earliest timestamp of the previous batch,
line 90-92, `_df.iloc[0].Timestamp`).  The request configuration
(lines 83-87) overrides `results` and `end` only when `start_date` is
already set; the first iteration sends the caller's parameters
unchanged.  Returns the concatenation of the fetched batches in fetch
order together with the list of issued request configurations. -/
def batchLoop (hist : List Int) (p : QueryParams) :
    List Nat → Option Int → Except PyErr (List Int × List QueryParams)
  | [], _ => .ok ([], [])
  | b :: rest, startDate =>
    let config : QueryParams :=
      match startDate with
      | some s => ⟨some b, some s⟩
      | none => p
    match get_single_batch hist config with
    | .error e => .error e
    | .ok df =>
      match batchLoop hist p rest df.head? with
      | .error e => .error e
      | .ok (acc, log) => .ok (df ++ acc, config :: log)

/-- dataloader.py lines 75-93, `ThingSpeakAPICaller.get_multiple_batches`:
read `N = query_params.get("results")` (a missing key gives `None` and
`None // N_MAX` raises `TypeError`), build the batch-size list
`[N_MAX] * (N // N_MAX)` plus the remainder `N % N_MAX` when nonzero
(lines 78-79), run the batch loop starting with no `start_date`, and
return the concatenation sorted by timestamp ascending (line 93;
`pd.concat` of an empty list raises `ValueError`).  No deduplication
step is applied.  The second component is the list of issued request
configurations. -/
def get_multiple_batches (N_MAX : Nat) (hist : List Int) (p : QueryParams) :
    Except PyErr (List Int × List QueryParams) :=
  match p.results with
  | none => .error .typeError
  | some N =>
    let batches := List.replicate (N / N_MAX) N_MAX ++
      (if N % N_MAX ≠ 0 then [N % N_MAX] else [])
    if batches.isEmpty then .error (.valueError "No objects to concatenate")
    else
      match batchLoop hist p batches none with
      | .error e => .error e
      | .ok (acc, log) => .ok (List.insertionSort (· ≤ ·) acc, log)

/-- dataloader.py lines 14-44, `ThingSpeakAPICaller.get`:
`query_params = {"results": 10} | query_params` defaults `results` to 10
when the caller did not supply it (line 39); a `results` below
`MAX_BATCH_SIZE` is served by one single-batch call, anything else by
`get_multiple_batches` (lines 41-44).  Instrumented to also return the
issued request configurations. -/
def get (hist : List Int) (p : QueryParams) : Except PyErr (List Int × List QueryParams) :=
  let p' : QueryParams := ⟨some (p.results.getD 10), p.endTs⟩
  if p'.results.getD 0 < MAX_BATCH_SIZE then
    match get_single_batch hist p' with
    | .error e => .error e
    | .ok df => .ok (df, [p'])
  else
    get_multiple_batches MAX_BATCH_SIZE hist p'

/-- A JSON metadata value, as found in the `channel` record of a
ThingSpeak response (string labels, integer ids, ...). -/
inductive PyVal where
  | str (s : String)
  | int (n : Int)
deriving DecidableEq, Repr

/-- dataloader.py line 116: the test `"field" in str(key)` — the key
contains the substring `field`. -/
def hasFieldMarker (key : String) : Bool :=
  decide ("field".toList <:+: key.toList)

/-- dataloader.py lines 95-119, `ThingSpeakAPICaller._get_field_names`:
iterate over the metadata record in order and keep every key containing
the substring `"field"`, paired with its value.  A Python dict is
modelled as an association list in insertion order. -/
def get_field_names {α : Type} (desc : List (String × α)) : List (String × α) :=
  desc.foldl (fun acc kv => if hasFieldMarker kv.1 then acc ++ [kv] else acc) []

/-- calibrate.py lines 15-50: a one-point calibration model. -/
structure OnePoint where
  measured : ℚ
  reference : ℚ
deriving DecidableEq, Repr

/-- calibrate.py lines 35-50, `OnePoint.correct`: add the constant
offset `reference - measured` to the raw value. -/
def OnePoint.correct (m : OnePoint) (X : ℚ) : ℚ :=
  X + (m.reference - m.measured)

/-- calibrate.py lines 53-69: a two-point calibration model, holding the
two reference points unpacked in `__init__` (lines 68-69). -/
structure TwoPoint where
  x1 : ℚ
  y1 : ℚ
  x2 : ℚ
  y2 : ℚ
deriving DecidableEq, Repr

/-- calibrate.py lines 58-69, `TwoPoint.__init__`: unpack the two
reference points into attributes.  The constructor performs no
distinctness check and cannot raise on a two-element list, so it is
embedded as always succeeding. -/
def TwoPoint.init (p1 p2 : ℚ × ℚ) : Except PyErr TwoPoint :=
  .ok ⟨p1.1, p1.2, p2.1, p2.2⟩

/-- The module-level global bindings of calibrate.py that could stand
for a numeric value: there are none.  The module defines only `np`,
`pd`, `ABC`, `abstractmethod` and the four classes; in particular none
of the bare names `x1`, `x2`, `y1`, `y2` used inside
`TwoPoint.correct` is bound at module level. -/
def calibrateGlobals : String → Option ℚ := fun _ => none

/-- Resolution of a bare (non-`self`) name inside a method body of
calibrate.py: the name is not a local of the method, so Python falls
back to the module globals and raises `NameError` when absent. -/
def resolveGlobal (n : String) : Except PyErr ℚ :=
  match calibrateGlobals n with
  | some v => .ok v
  | none => .error (.nameError n)

/-- calibrate.py line 85, `TwoPoint.correct`:
`return (y2 - y1) / (x2 - x1) * (X - x1) + y1`.  The body references the
bare names `y2`, `y1`, `x2`, `x1` (not `self.x1` etc.), which Python
resolves left to right against the (empty) module globals; a zero
denominator would raise `ZeroDivisionError`.  The model attributes
`_m` are never consulted by the source line. -/
def TwoPoint.correct (_m : TwoPoint) (X : ℚ) : Except PyErr ℚ := do
  let y2 ← resolveGlobal "y2"
  let y1 ← resolveGlobal "y1"
  let x2 ← resolveGlobal "x2"
  let x1 ← resolveGlobal "x1"
  if x2 - x1 = 0 then .error .zeroDivisionError
  else .ok ((y2 - y1) / (x2 - x1) * (X - x1) + y1)

/-- Determinant of the 3×3 matrix with rows `(a,b,c)`, `(d,e,f)`,
`(g,h,i)`, by cofactor expansion along the first row. -/
def det3 (a b c d e f g h i : ℚ) : ℚ :=
  a * (e * i - f * h) - b * (d * i - f * g) + c * (d * h - e * g)

/-- Determinant of the Vandermonde matrix
`[[1, x1, x1²], [1, x2, x2²], [1, x3, x3²]]` built at
calibrate.py line 129. -/
def vandermondeDet (x1 x2 x3 : ℚ) : ℚ :=
  det3 1 x1 (x1 ^ 2) 1 x2 (x2 ^ 2) 1 x3 (x3 ^ 2)

/-- calibrate.py lines 88-130: a three-point calibration model with its
fitted quadratic coefficients `(a, b, c)`. -/
structure ThreePoint where
  x1 : ℚ
  y1 : ℚ
  x2 : ℚ
  y2 : ℚ
  x3 : ℚ
  y3 : ℚ
  coeffs : ℚ × ℚ × ℚ
deriving DecidableEq, Repr

/-- calibrate.py lines 93-106 and 125-130, `ThreePoint.__init__` and
`ThreePoint._coeffs`: unpack the three reference points and compute
`np.linalg.inv(X).dot(Y)` for the Vandermonde matrix `X` and truth
vector `Y` already at construction time (line 106).  In exact
arithmetic `np.linalg.inv(X).dot(Y)` is the unique solution of the
linear system `X · c = Y`, here written by Cramer's rule, and
`np.linalg.inv` raises `numpy.linalg.LinAlgError` exactly when the
matrix is singular, i.e. when its determinant vanishes. -/
def ThreePoint.init (p1 p2 p3 : ℚ × ℚ) : Except PyErr ThreePoint :=
  let x1 := p1.1; let y1 := p1.2
  let x2 := p2.1; let y2 := p2.2
  let x3 := p3.1; let y3 := p3.2
  let d := vandermondeDet x1 x2 x3
  if d = 0 then .error .linAlgError
  else .ok ⟨x1, y1, x2, y2, x3, y3,
    (det3 y1 x1 (x1 ^ 2) y2 x2 (x2 ^ 2) y3 x3 (x3 ^ 2) / d,
     det3 1 y1 (x1 ^ 2) 1 y2 (x2 ^ 2) 1 y3 (x3 ^ 2) / d,
     det3 1 x1 y1 1 x2 y2 1 x3 y3 / d)⟩

/-- calibrate.py lines 108-123, `ThreePoint.correct`: evaluate the
fitted quadratic `coeffs[0] + coeffs[1] * X + coeffs[2] * X ** 2`. -/
def ThreePoint.correct (m : ThreePoint) (X : ℚ) : ℚ :=
  m.coeffs.1 + m.coeffs.2.1 * X + m.coeffs.2.2 * X ^ 2

instance {ε α : Type} [DecidableEq ε] [DecidableEq α] : DecidableEq (Except ε α) :=
  fun a b =>
    match a, b with
    | .error e, .error f =>
      if h : e = f then isTrue (h ▸ rfl) else isFalse (fun hc => h (Except.error.inj hc))
    | .ok x, .ok y =>
      if h : x = y then isTrue (h ▸ rfl) else isFalse (fun hc => h (Except.ok.inj hc))
    | .error _, .ok _ => isFalse (fun hc => Except.noConfusion hc)
    | .ok _, .error _ => isFalse (fun hc => Except.noConfusion hc)

end Stace

namespace Stace

/-- C7: a one-point calibration is a pure constant offset: for every raw
value `r`, `correct r - r` equals `reference - measured`, hence
`correct measured = reference`; with `measured = 98.2` and
`reference = 100.0`, correcting the raw value `97.5` yields `99.3`. -/
theorem onePoint_pure_offset :
    (∀ (m : OnePoint) (r : ℚ), m.correct r - r = m.reference - m.measured)
    ∧ (∀ m : OnePoint, m.correct m.measured = m.reference)
    ∧ OnePoint.correct ⟨982 / 10, 100⟩ (195 / 2) = 993 / 10 := by
  refine ⟨fun m r => ?_, fun m => ?_, by norm_num [OnePoint.correct]⟩
  · unfold OnePoint.correct; ring
  · unfold OnePoint.correct; ring

/-- C2 (failing input): `TwoPoint.correct` never computes the affine
correction: its body reads the bare names `y2`, `y1`, `x2`, `x1`, which
are bound neither locally nor at module level, so every call raises
`NameError` on the first name read, `y2` — it cannot return
`slope * (r - measured1) + truth1` for any input. -/
theorem twoPoint_correct_raises_nameError (m : TwoPoint) (X : ℚ) :
    m.correct X = .error (.nameError "y2") := rfl

/-- C3 (counterexample): constructing a `TwoPoint` model from two
reference pairs with the same measured value `1` completes normally,
returning the model — no `DegenerateInputError` (nor any other
exception) is raised at construction time. -/
theorem twoPoint_init_equal_measured_no_error :
    TwoPoint.init (1, 2) (1, 5) = .ok ⟨1, 2, 1, 5⟩ := rfl

/-- C3 (amended): `TwoPoint` construction performs no distinctness
check and always succeeds, storing the four coordinates; `ThreePoint`
construction with measured values that are not pairwise distinct fails
at construction time with `numpy.linalg.LinAlgError` (singular
Vandermonde matrix) — no `DegenerateInputError` exists in the code. -/
theorem degenerate_construction_behavior :
    (∀ p1 p2 : ℚ × ℚ, TwoPoint.init p1 p2 = .ok ⟨p1.1, p1.2, p2.1, p2.2⟩)
    ∧ (∀ x1 y1 x2 y2 x3 y3 : ℚ, (x1 = x2 ∨ x1 = x3 ∨ x2 = x3) →
        ThreePoint.init (x1, y1) (x2, y2) (x3, y3) = .error .linAlgError) := by
  constructor
  · intro p1 p2; rfl
  · intro x1 y1 x2 y2 x3 y3 h
    have hfac : vandermondeDet x1 x2 x3 = (x2 - x1) * ((x3 - x1) * (x3 - x2)) := by
      unfold vandermondeDet det3; ring
    have hd : vandermondeDet x1 x2 x3 = 0 := by
      rcases h with h | h | h <;> rw [hfac, h] <;> ring
    unfold ThreePoint.init
    simp [hd]

/-- C3 (witness for the amended statement): degenerate construction at
the concrete inputs `TwoPoint [(1,2), (1,5)]` and
`ThreePoint [(1,2), (1,5), (3,4)]`. -/
theorem degenerate_construction_behavior_witness :
    TwoPoint.init (1, 2) (1, 5) = .ok ⟨(1 : ℚ), 2, 1, 5⟩
    ∧ ThreePoint.init (1, 2) (1, 5) (3, 4) = .error .linAlgError :=
  ⟨degenerate_construction_behavior.1 (1, 2) (1, 5),
   degenerate_construction_behavior.2 1 2 1 5 3 4 (Or.inl rfl)⟩

/-- C6: a `ThreePoint` model built from three reference pairs with
pairwise-distinct measured values is constructed successfully, and its
fitted quadratic exactly interpolates the three reference pairs:
`correct x1 = y1`, `correct x2 = y2`, `correct x3 = y3`. -/
theorem threePoint_interpolates (x1 y1 x2 y2 x3 y3 : ℚ)
    (h12 : x1 ≠ x2) (h13 : x1 ≠ x3) (h23 : x2 ≠ x3) :
    (ThreePoint.init (x1, y1) (x2, y2) (x3, y3)).map
      (fun m => (m.correct x1, m.correct x2, m.correct x3)) = .ok (y1, y2, y3) := by
  have hfac : vandermondeDet x1 x2 x3 = (x2 - x1) * ((x3 - x1) * (x3 - x2)) := by
    unfold vandermondeDet det3; ring
  have hd : vandermondeDet x1 x2 x3 ≠ 0 := by
    rw [hfac]
    exact mul_ne_zero (sub_ne_zero.mpr h12.symm)
      (mul_ne_zero (sub_ne_zero.mpr h13.symm) (sub_ne_zero.mpr h23.symm))
  unfold ThreePoint.init
  simp only [hd, if_false, Except.map, ThreePoint.correct, Prod.mk.injEq, ite_false,
    Except.ok.injEq]
  refine ⟨?_, ?_, ?_⟩ <;>
    · field_simp
      unfold vandermondeDet det3
      ring

/-- C6 (witness): the three-point model through `(0,1)`, `(1,3)`,
`(2,7)` is built successfully and interpolates all three pairs. -/
theorem threePoint_interpolates_witness :
    (ThreePoint.init (0, 1) (1, 3) (2, 7)).map
      (fun m => (m.correct 0, m.correct 1, m.correct 2)) = .ok (1, 3, 7) :=
  threePoint_interpolates 0 1 1 3 2 7 (by norm_num) (by norm_num) (by norm_num)

end Stace


namespace Stace

/-- Unfolding equation for `get_multiple_batches` when `results` is set. -/
theorem get_multiple_batches_eq (N_MAX : Nat) (hist : List Int) (p : QueryParams)
    (N : Nat) (hr : p.results = some N) :
    get_multiple_batches N_MAX hist p =
      (if (List.replicate (N / N_MAX) N_MAX ++
            (if N % N_MAX ≠ 0 then [N % N_MAX] else [])).isEmpty
       then .error (.valueError "No objects to concatenate")
       else
         match batchLoop hist p (List.replicate (N / N_MAX) N_MAX ++
             (if N % N_MAX ≠ 0 then [N % N_MAX] else [])) none with
         | .error e => .error e
         | .ok (acc, log) => .ok (List.insertionSort (· ≤ ·) acc, log)) := by
  unfold get_multiple_batches
  rw [hr]

/-- A successful `get_multiple_batches` run comes from a successful run
of the batch loop over the scheduled batch-size list, and its series is
the sorted concatenation of the fetched batches. -/
theorem gmb_ok_elim (N_MAX : Nat) (hist : List Int) (p : QueryParams) (S : List Int)
    (L : List QueryParams) (h : get_multiple_batches N_MAX hist p = .ok (S, L)) :
    ∃ N acc, p.results = some N
      ∧ batchLoop hist p (List.replicate (N / N_MAX) N_MAX ++
          (if N % N_MAX ≠ 0 then [N % N_MAX] else [])) none = .ok (acc, L)
      ∧ S = List.insertionSort (· ≤ ·) acc := by
  cases hr : p.results with
  | none =>
    unfold get_multiple_batches at h
    rw [hr] at h
    exact absurd h (by simp)
  | some N =>
    rw [get_multiple_batches_eq N_MAX hist p N hr] at h
    set B : List Nat := List.replicate (N / N_MAX) N_MAX ++
      (if N % N_MAX ≠ 0 then [N % N_MAX] else []) with hB
    by_cases hBe : B.isEmpty
    · rw [if_pos hBe] at h
      exact absurd h (by simp)
    · rw [if_neg hBe] at h
      split at h
      · exact absurd h (by simp)
      · rename_i acc log heq
        simp only [Except.ok.injEq, Prod.mk.injEq] at h
        obtain ⟨h1, h2⟩ := h
        subst h2
        exact ⟨N, acc, rfl, heq, h1.symm⟩

/-- On success, the batch loop issues exactly one request per entry of
the scheduled batch-size list. -/
theorem batchLoop_ok_length (hist : List Int) (p : QueryParams) :
    ∀ (batches : List Nat) (sd : Option Int) (S : List Int) (L : List QueryParams),
      batchLoop hist p batches sd = .ok (S, L) → L.length = batches.length := by
  intro batches
  induction batches with
  | nil =>
    intro sd S L h
    simp only [batchLoop, Except.ok.injEq, Prod.mk.injEq] at h
    obtain ⟨h1, h2⟩ := h
    subst h2
    rfl
  | cons b rest ih =>
    intro sd S L h
    have hstep : ∃ cfg : QueryParams, batchLoop hist p (b :: rest) sd =
        (match get_single_batch hist cfg with
         | .error e => .error e
         | .ok df =>
           match batchLoop hist p rest df.head? with
           | .error e => .error e
           | .ok (acc, log) => .ok (df ++ acc, cfg :: log)) := by
      cases sd with
      | none => exact ⟨p, rfl⟩
      | some s => exact ⟨⟨some b, some s⟩, rfl⟩
    obtain ⟨cfg, hcfg⟩ := hstep
    rw [hcfg] at h
    split at h
    · exact absurd h (by simp)
    · split at h
      · exact absurd h (by simp)
      · rename_i acc log heq
        simp only [Except.ok.injEq, Prod.mk.injEq] at h
        obtain ⟨h1, h2⟩ := h
        subst h2
        simp [ih _ _ _ heq]

/-- The first request the batch loop issues carries the caller's
parameters unchanged. -/
theorem batchLoop_first_request (hist : List Int) (p : QueryParams)
    (b : Nat) (rest : List Nat) (S : List Int) (L : List QueryParams)
    (h : batchLoop hist p (b :: rest) none = .ok (S, L)) :
    ∃ t, L = p :: t := by
  have hcfg : batchLoop hist p (b :: rest) none =
      (match get_single_batch hist p with
       | .error e => .error e
       | .ok df =>
         match batchLoop hist p rest df.head? with
         | .error e => .error e
         | .ok (acc, log) => .ok (df ++ acc, p :: log)) := rfl
  rw [hcfg] at h
  split at h
  · exact absurd h (by simp)
  · split at h
    · exact absurd h (by simp)
    · rename_i acc log heq
      simp only [Except.ok.injEq, Prod.mk.injEq] at h
      exact ⟨log, h.2.symm⟩

end Stace

namespace Stace

/-- C1 (counterexample): a paginated fetch of `N = 7` records with
per-batch cap `3` against a 20-record upstream returns an 11-record
series: the first request carries the full `results = 7` (not the cap),
and the records at the boundary `end` timestamps `13` and `11` are
re-fetched by the following batches and kept — the result is longer
than `N`, not strictly ascending, and has duplicate timestamps. -/
theorem pagination_keeps_boundary_duplicates :
    (3 : Nat) < 7
    ∧ get_multiple_batches 3
        [0, 1, 2, 3, 4, 5, 6, 7, 8, 9, 10, 11, 12, 13, 14, 15, 16, 17, 18, 19]
        ⟨some 7, none⟩ =
      .ok ([11, 11, 12, 13, 13, 14, 15, 16, 17, 18, 19],
        [⟨some 7, none⟩, ⟨some 3, some 13⟩, ⟨some 1, some 11⟩])
    ∧ ¬ ([11, 11, 12, 13, 13, 14, 15, 16, 17, 18, 19] : List Int).length ≤ 7
    ∧ ¬ List.Sorted (· < ·) ([11, 11, 12, 13, 13, 14, 15, 16, 17, 18, 19] : List Int)
    ∧ ¬ ([11, 11, 12, 13, 13, 14, 15, 16, 17, 18, 19] : List Int).Nodup :=
  ⟨by norm_num, by decide, by decide, by decide, by decide⟩

/-- C1 (amended): the paginated fetch performs no deduplication — it
returns the plain concatenation of all fetched batches sorted by
timestamp; the returned series is therefore sorted non-strictly
ascending, with the record at each boundary `end` timestamp kept once
per batch that contains it. -/
theorem get_multiple_batches_sorted (N_MAX : Nat) (hist : List Int) (p : QueryParams)
    (S : List Int) (L : List QueryParams)
    (h : get_multiple_batches N_MAX hist p = .ok (S, L)) :
    S.Sorted (· ≤ ·) := by
  obtain ⟨N, acc, -, -, hS⟩ := gmb_ok_elim N_MAX hist p S L h
  rw [hS]
  exact List.sorted_insertionSort _ _

/-- C1 (witness): the sortedness theorem applied to a concrete
paginated fetch (cap 3, four upstream records, `results = 4`). -/
theorem get_multiple_batches_sorted_witness :
    List.Sorted (· ≤ ·) ([0, 0, 1, 2, 3] : List Int) :=
  get_multiple_batches_sorted 3 [0, 1, 2, 3] ⟨some 4, none⟩ [0, 0, 1, 2, 3]
    [⟨some 4, none⟩, ⟨some 1, some 0⟩] (by decide)

/-- C4 (counterexample): with per-batch cap `3`, `results = 7` and an
upstream holding only 6 records, the first batch already returns fewer
records (6) than requested (7), yet the fetch does not stop: it issues
all 3 scheduled requests (the later ones re-serving the boundary record
`0`) and returns 8 records instead of the 6 available. -/
theorem pagination_no_early_termination :
    get_multiple_batches 3 [0, 1, 2, 3, 4, 5] ⟨some 7, none⟩ =
      .ok ([0, 0, 0, 1, 2, 3, 4, 5],
        [⟨some 7, none⟩, ⟨some 3, some 0⟩, ⟨some 1, some 0⟩])
    ∧ ([0, 1, 2, 3, 4, 5] : List Int).length < 7
    ∧ [(⟨some 7, none⟩ : QueryParams), ⟨some 3, some 0⟩, ⟨some 1, some 0⟩].length ≠ 1 :=
  ⟨by decide, by decide, by decide⟩

/-- C4 (amended): the paginated fetch never terminates early — on every
successful run it issues exactly one request per scheduled batch,
`⌊N / cap⌋` full batches plus one remainder batch when `cap` does not
divide `N`, regardless of how many records each batch returned. -/
theorem pagination_issues_all_batches (N_MAX : Nat) (hist : List Int) (p : QueryParams)
    (S : List Int) (L : List QueryParams)
    (h : get_multiple_batches N_MAX hist p = .ok (S, L)) :
    L.length = p.results.getD 0 / N_MAX
      + (if p.results.getD 0 % N_MAX ≠ 0 then 1 else 0) := by
  obtain ⟨N, acc, hr, hloop, -⟩ := gmb_ok_elim N_MAX hist p S L h
  rw [batchLoop_ok_length hist p _ _ _ _ hloop, hr]
  simp only [Option.getD_some, List.length_append, List.length_replicate]
  split <;> simp

/-- C4 (witness): the batch-count theorem applied to the exhausted
6-record upstream: 3 requests were issued, `7 / 3 = 2` full batches
plus the remainder batch. -/
theorem pagination_issues_all_batches_witness :
    [(⟨some 7, none⟩ : QueryParams), ⟨some 3, some 0⟩, ⟨some 1, some 0⟩].length
      = (⟨some 7, none⟩ : QueryParams).results.getD 0 / 3
        + (if (⟨some 7, none⟩ : QueryParams).results.getD 0 % 3 ≠ 0 then 1 else 0) :=
  pagination_issues_all_batches 3 [0, 1, 2, 3, 4, 5] ⟨some 7, none⟩
    [0, 0, 0, 1, 2, 3, 4, 5] [⟨some 7, none⟩, ⟨some 3, some 0⟩, ⟨some 1, some 0⟩]
    (by decide)

/-- C5 (code bug, evaluated at the failing input): a fetch of
`results = 16000` issues its first request with `results = 16000`,
exceeding the hard per-request cap `MAX_BATCH_SIZE = 8000`: the loop
only overrides `results` with the batch size once `start_date` is set,
so the first of the `ceil(16000 / 8000) = 2` scheduled requests goes
out unclamped (here against a 5-record upstream, whose protocol-capped
answer also makes the final series repeat the boundary record `0`). -/
theorem first_request_exceeds_cap :
    get [0, 1, 2, 3, 4] ⟨some 16000, none⟩ =
      .ok ([0, 0, 1, 2, 3, 4], [⟨some 16000, none⟩, ⟨some 8000, some 0⟩])
    ∧ MAX_BATCH_SIZE < 16000 :=
  ⟨by decide, by norm_num [MAX_BATCH_SIZE]⟩

end Stace

namespace Stace

/-- A successful single-batch fetch means the response was nonempty and
the returned table is the response sorted by timestamp. -/
theorem get_single_batch_ok_elim (hist : List Int) (p : QueryParams) (S : List Int)
    (h : get_single_batch hist p = .ok S) :
    serve hist p ≠ [] ∧ S = List.insertionSort (· ≤ ·) (serve hist p) := by
  simp only [get_single_batch] at h
  by_cases he : (serve hist p).isEmpty
  · rw [if_pos he] at h
    exact absurd h (by simp)
  · rw [if_neg he] at h
    simp only [Except.ok.injEq] at h
    exact ⟨fun hn => he (by simp [hn]), h.symm⟩

/-- C8: a single-batch fetch fails with the empty-result error
(`ValueError("No data was fetched.")`, the spec's `EmptyResultError`,
an error value distinct from every transport or parsing failure) if and
only if the remote response contains zero records; whenever at least
one record is present no error is raised and the returned table is
sorted by timestamp ascending. -/
theorem single_batch_empty_error_iff (hist : List Int) (p : QueryParams) :
    (get_single_batch hist p = .error (.valueError "No data was fetched.")
      ↔ serve hist p = [])
    ∧ ∀ S, get_single_batch hist p = .ok S → serve hist p ≠ [] ∧ S.Sorted (· ≤ ·) := by
  constructor
  · constructor
    · intro h
      by_cases he : (serve hist p).isEmpty
      · exact List.isEmpty_iff.mp he
      · simp only [get_single_batch] at h
        rw [if_neg he] at h
        exact absurd h (by simp)
    · intro h
      simp only [get_single_batch, h]
      rfl
  · intro S h
    obtain ⟨hne, hS⟩ := get_single_batch_ok_elim hist p S h
    rw [hS]
    exact ⟨hne, List.sorted_insertionSort _ _⟩

/-- C8 (witness): fetching 2 records from the 3-record upstream
`[1, 2, 3]` succeeds with the nonempty sorted table `[2, 3]`. -/
theorem single_batch_empty_error_iff_witness :
    serve [1, 2, 3] ⟨some 2, none⟩ ≠ [] ∧ List.Sorted (· ≤ ·) ([2, 3] : List Int) :=
  (single_batch_empty_error_iff [1, 2, 3] ⟨some 2, none⟩).2 [2, 3] (by decide)

/-- The accumulate-if loop of `_get_field_names` is a filter. -/
theorem foldl_append_filter {α : Type} (q : String × α → Bool) :
    ∀ (l acc : List (String × α)),
      l.foldl (fun a kv => if q kv then a ++ [kv] else a) acc = acc ++ l.filter q := by
  intro l
  induction l with
  | nil => intro acc; simp
  | cons kv rest ih =>
    intro acc
    by_cases hq : q kv
    · simp [List.foldl_cons, hq, ih, List.filter_cons]
    · simp [List.foldl_cons, hq, ih, List.filter_cons]

/-- C9: the field-name resolver returns exactly the sub-mapping of
metadata keys containing the `"field"` marker substring, paired with
their label values; on the example channel record it keeps `field1`
and `field2`, and on a record with no field-like key it returns the
empty mapping rather than an error. -/
theorem field_names_are_field_keys :
    (∀ (α : Type) (desc : List (String × α)),
        get_field_names desc = desc.filter (fun kv => hasFieldMarker kv.1))
    ∧ get_field_names
        [("name", PyVal.str "Tank A"), ("field1", PyVal.str "Temp (C)"),
         ("field2", PyVal.str "Pressure (psi)"), ("id", PyVal.int 42)] =
      [("field1", PyVal.str "Temp (C)"), ("field2", PyVal.str "Pressure (psi)")]
    ∧ get_field_names [("name", PyVal.str "Tank A"), ("id", PyVal.int 42)]
      = ([] : List (String × PyVal)) := by
  refine ⟨fun α desc => ?_, by decide, by decide⟩
  unfold get_field_names
  simpa using foldl_append_filter (fun kv => hasFieldMarker kv.1) desc []

end Stace

namespace Stace

/-- Unfolding equation for `get`: the effective parameters carry
`results` defaulted to 10 when absent. -/
theorem get_eq (hist : List Int) (p : QueryParams) :
    get hist p =
      (if p.results.getD 10 < MAX_BATCH_SIZE then
        match get_single_batch hist ⟨some (p.results.getD 10), p.endTs⟩ with
        | .error er => .error er
        | .ok df => .ok (df, [⟨some (p.results.getD 10), p.endTs⟩])
      else get_multiple_batches MAX_BATCH_SIZE hist ⟨some (p.results.getD 10), p.endTs⟩) :=
  rfl

/-- The remote service never returns more records than requested. -/
theorem serve_length_le (hist : List Int) (p : QueryParams) :
    (serve hist p).length ≤ p.results.getD 0 := by
  simp only [serve, List.length_drop]
  have h1 := min_le_left (p.results.getD 0) MAX_BATCH_SIZE
  omega

/-- With no `end` bound, the service answers with the most recent
records: the suffix of its ascending history. -/
theorem serve_no_bound (hist : List Int) (n : Nat) :
    serve hist ⟨some n, none⟩ = hist.drop (hist.length - min n MAX_BATCH_SIZE) := by
  show (hist.filter (fun _ => true)).drop
      ((hist.filter (fun _ => true)).length - min n MAX_BATCH_SIZE) = _
  rw [List.filter_true]

/-- C10: a fetch whose query options omit `results` requests the 10
most recent records in a single batch — it behaves exactly like an
explicit `results = 10` fetch, issues one request with `results = 10`,
returns at most 10 records, and on an ascending upstream returns
precisely its last `10` records — while a supplied `results = r` always
overrides the default: the first issued request carries `results = r`. -/
theorem get_defaults_to_ten_results (hist : List Int) :
    (get hist ⟨none, none⟩ = get hist ⟨some 10, none⟩)
    ∧ (∀ S L, get hist ⟨none, none⟩ = .ok (S, L) →
        L = [⟨some 10, none⟩] ∧ S.length ≤ 10)
    ∧ (List.Sorted (· ≤ ·) hist → ∀ S L, get hist ⟨none, none⟩ = .ok (S, L) →
        S = hist.drop (hist.length - 10))
    ∧ (∀ (r : Nat) S L, get hist ⟨some r, none⟩ = .ok (S, L) →
        ∃ c t, L = c :: t ∧ c.results = some r) := by
  have h10 : (10 : Nat) < MAX_BATCH_SIZE := by norm_num [MAX_BATCH_SIZE]
  refine ⟨rfl, ?_, ?_, ?_⟩
  · intro S L h
    rw [get_eq] at h
    simp only [Option.getD_none] at h
    rw [if_pos h10] at h
    split at h
    · exact absurd h (by simp)
    · rename_i df hdf
      simp only [Except.ok.injEq, Prod.mk.injEq] at h
      obtain ⟨h1, h2⟩ := h
      subst h1
      refine ⟨h2.symm, ?_⟩
      obtain ⟨-, hS⟩ := get_single_batch_ok_elim _ _ _ hdf
      rw [hS, List.length_insertionSort]
      exact serve_length_le hist ⟨some 10, none⟩
  · intro hsorted S L h
    rw [get_eq] at h
    simp only [Option.getD_none] at h
    rw [if_pos h10] at h
    split at h
    · exact absurd h (by simp)
    · rename_i df hdf
      simp only [Except.ok.injEq, Prod.mk.injEq] at h
      obtain ⟨h1, h2⟩ := h
      subst h1
      obtain ⟨-, hS⟩ := get_single_batch_ok_elim _ _ _ hdf
      have hserve := serve_no_bound hist 10
      have hmin : min 10 MAX_BATCH_SIZE = 10 := by norm_num [MAX_BATCH_SIZE]
      rw [hmin] at hserve
      have hsub : List.Sorted (· ≤ ·) (serve hist ⟨some 10, none⟩) := by
        rw [hserve]
        exact hsorted.sublist (List.drop_sublist _ _)
      rw [hS, hsub.insertionSort_eq, hserve]
  · intro r S L h
    rw [get_eq] at h
    simp only [Option.getD_some] at h
    by_cases hrc : r < MAX_BATCH_SIZE
    · rw [if_pos hrc] at h
      split at h
      · exact absurd h (by simp)
      · rename_i df hdf
        simp only [Except.ok.injEq, Prod.mk.injEq] at h
        exact ⟨⟨some r, none⟩, [], h.2.symm, rfl⟩
    · rw [if_neg hrc] at h
      obtain ⟨N, acc, hrN, hloop, -⟩ := gmb_ok_elim _ _ _ _ _ h
      have hNr : r = N := Option.some.inj hrN
      subst hNr
      have h8 : 1 ≤ r / MAX_BATCH_SIZE := by
        rw [Nat.one_le_div_iff (by norm_num [MAX_BATCH_SIZE])]
        omega
      obtain ⟨k, hk⟩ : ∃ k, r / MAX_BATCH_SIZE = k + 1 :=
        ⟨r / MAX_BATCH_SIZE - 1, by omega⟩
      rw [hk, List.replicate_succ, List.cons_append] at hloop
      obtain ⟨t, hT⟩ := batchLoop_first_request _ _ _ _ _ _ hloop
      exact ⟨⟨some r, none⟩, t, hT, rfl⟩

/-- C10 (witness): on the 12-record ascending upstream `[0, …, 11]`,
the defaulted fetch issues the single request `results = 10` and
returns the 10 most recent records. -/
theorem get_defaults_to_ten_results_witness :
    ([(⟨some 10, none⟩ : QueryParams)] = [⟨some 10, none⟩]
      ∧ ([2, 3, 4, 5, 6, 7, 8, 9, 10, 11] : List Int).length ≤ 10)
    ∧ ([2, 3, 4, 5, 6, 7, 8, 9, 10, 11] : List Int)
        = ([0, 1, 2, 3, 4, 5, 6, 7, 8, 9, 10, 11] : List Int).drop
            (([0, 1, 2, 3, 4, 5, 6, 7, 8, 9, 10, 11] : List Int).length - 10)
    ∧ (∃ c t, [(⟨some 10, none⟩ : QueryParams)] = c :: t ∧ c.results = some 10) := by
  refine ⟨?_, ?_, ?_⟩
  · exact (get_defaults_to_ten_results [0, 1, 2, 3, 4, 5, 6, 7, 8, 9, 10, 11]).2.1
      [2, 3, 4, 5, 6, 7, 8, 9, 10, 11] [⟨some 10, none⟩] (by decide)
  · exact (get_defaults_to_ten_results [0, 1, 2, 3, 4, 5, 6, 7, 8, 9, 10, 11]).2.2.1
      (by decide) [2, 3, 4, 5, 6, 7, 8, 9, 10, 11] [⟨some 10, none⟩] (by decide)
  · exact (get_defaults_to_ten_results [0, 1, 2, 3, 4, 5, 6, 7, 8, 9, 10, 11]).2.2.2
      10 [2, 3, 4, 5, 6, 7, 8, 9, 10, 11] [⟨some 10, none⟩] (by decide)

end Stace
